import Mathlib

/-!
Verification of the rotary-phone guestbook controller (`app.py`).

The file shallowly embeds the program: the `Phone` state machine and its
declarative transition table, the entry/exit callbacks, the `BaseAudio` /
`AudioPlayer` / `AudioRecorder` classes (external processes are modelled by a
pool of process ids), and the `_get_dial` pulse-decoder loop (one iteration
becomes a step function over the loop's local variables; wall-clock readings
become rational-number inputs).
-/

namespace RotaryPhone

/-- The three states declared on `Phone`: `idle` (initial), `dialing`,
`answering`. -/
inductive PhoneState where
  | idle
  | dialing
  | answering
  deriving DecidableEq

/-- The events declared on `Phone`: `pickup`, `dial` (carrying the dialed
number string), `answer`, `hang_up`. -/
inductive PhoneEvent where
  | pickup
  | dial (number : String)
  | answer
  | hang_up
  deriving DecidableEq

/-- The declarative transition table of `Phone`:
`pickup = idle.to(dialing)`, `dial = dialing.to(answering)`,
`answer = answering.to(idle)`,
`hang_up = idle.to(idle) | dialing.to(idle) | answering.to(idle)`.
`none` stands for a (state, event) pair that is not in the table. -/
def transition : PhoneState → PhoneEvent → Option PhoneState
  | .idle, .pickup => some .dialing
  | .dialing, .dial _ => some .answering
  | .answering, .answer => some .idle
  | _, .hang_up => some .idle
  | _, _ => none

/-- The audio-side operations the entry/exit callbacks of `Phone` invoke. -/
inductive AudioAction where
  | stopRecorder
  | stopPlayer
  | playDial
  | playBeepLongAndWait
  | record (number : String)
  deriving DecidableEq

/-- Audio operations of the `on_exit_*` callbacks: `on_exit_idle` only logs,
`on_exit_dialing` stops the dial tone, `answering` has no exit callback. -/
def exitActions : PhoneState → List AudioAction
  | .idle => []
  | .dialing => [.stopPlayer]
  | .answering => []

/-- Audio operations of the `on_enter_*` callbacks: `on_enter_idle` stops the
recorder then the player, `on_enter_dialing` starts the dial tone,
`on_enter_answering` plays `beep-long.mp3`, waits on it, then records into the
directory named by the dialed number the transition carried. -/
def entryActions : PhoneState → Option String → List AudioAction
  | .idle, _ => [.stopRecorder, .stopPlayer]
  | .dialing, _ => [.playDial]
  | .answering, some n => [.playBeepLongAndWait, .record n]
  | .answering, none => []

/-- The payload an event carries (only `dial` has one). -/
def eventNumber : PhoneEvent → Option String
  | .dial n => some n
  | _ => none

/-- The fault the `statemachine` library raises when the fired event has no
transition from the current state (`TransitionNotAllowed`); `app.py` installs
no handler for it anywhere. -/
inductive Fault where
  | transitionNotAllowed
  deriving DecidableEq

/-- Firing an event: a pair in the table flips the state and runs the old
state's exit actions followed by the new state's entry actions; a pair outside
the table leaves the state unchanged, runs no actions, and raises
`TransitionNotAllowed`. -/
def fireEvent (s : PhoneState) (e : PhoneEvent) :
    PhoneState × List AudioAction × Option Fault :=
  match transition s e with
  | some t => (t, exitActions s ++ entryActions t (eventNumber e), none)
  | none => (s, [], some .transitionNotAllowed)

/-- The machine's state after firing an event (unchanged when rejected). -/
def fireState (s : PhoneState) (e : PhoneEvent) : PhoneState :=
  (fireEvent s e).1

/-- Identifier of a spawned OS process (a `subprocess.Popen` handle). -/
abbrev Pid := Nat

/-- The pool of external audio processes: which pids are currently running and
the pid the next `Popen` call would return. -/
structure ProcWorld where
  running : List Pid
  nextPid : Pid
  deriving DecidableEq

/-- Attribute state of a `BaseAudio` object. `__init__` sets
`current_process = None`; note that `_execute` assigns the spawned process to
`current_recording_process`, a distinct attribute that no method ever reads. -/
structure BaseAudio where
  current_process : Option Pid
  current_recording_process : Option Pid
  deriving DecidableEq

/-- A `BaseAudio` object right after `__init__` (the attribute
`current_recording_process` does not exist yet in Python and is never read
before `_execute` assigns it; `none` stands for both situations). -/
def BaseAudio.init : BaseAudio :=
  { current_process := none, current_recording_process := none }

/-- `BaseAudio._execute(command)`: spawn the command as an external process and
store the handle in `self.current_recording_process` (verbatim from the source:
`current_process` is not assigned). -/
def BaseAudio.execute (a : BaseAudio) (w : ProcWorld) : BaseAudio × ProcWorld :=
  ({ a with current_recording_process := some w.nextPid },
   { running := w.nextPid :: w.running, nextPid := w.nextPid + 1 })

/-- `BaseAudio.stop`: return at once when `current_process` is `None`;
otherwise terminate it, wait for it, and clear the attribute. -/
def BaseAudio.stop (a : BaseAudio) (w : ProcWorld) : BaseAudio × ProcWorld :=
  match a.current_process with
  | none => (a, w)
  | some p =>
    ({ a with current_process := none }, { w with running := w.running.erase p })

/-- Python runtime faults the embedded methods can raise. -/
inductive PyError where
  | attributeError
  deriving DecidableEq

/-- `BaseAudio.wait`: `self.current_process.wait()`, which raises
`AttributeError` when `current_process` is `None`, and otherwise blocks until
the process exits. -/
def BaseAudio.wait (a : BaseAudio) : Except PyError Unit :=
  match a.current_process with
  | none => .error .attributeError
  | some _ => .ok ()

/-- `AudioPlayer.play(file)`: when the file does not exist, log an error and
return `None`; otherwise `stop()` then `_execute(["play", file])` and return
`self`. The first component is the Python return value (`self` or `None`), the
second the object's state afterwards. -/
def AudioPlayer.play (fileExists : Bool) (a : BaseAudio) (w : ProcWorld) :
    Option BaseAudio × BaseAudio × ProcWorld :=
  if !fileExists then (none, a, w)
  else
    let p1 := a.stop w
    let p2 := p1.1.execute p1.2
    (some p2.1, p2.1, p2.2)

/-- The loop body of `AudioRecorder.get_unique_filename`: starting at `idx`,
return the first index whose `.mp3` file is not among `files`. The Python
`while True` loop carries no bound; the explicit fuel is only a termination
device — `maxFile files + 1` steps always suffice, since every index above the
largest existing file is free. -/
def firstFree (files : List Nat) : Nat → Nat → Nat
  | 0, idx => idx
  | fuel + 1, idx => if idx ∈ files then firstFree files fuel (idx + 1) else idx

/-- The largest index present in the directory (0 when empty). -/
def maxFile (files : List Nat) : Nat := files.foldr max 0

/-- `AudioRecorder.get_unique_filename(folder_path)`: the first index `i ≥ 1`
such that `i.mp3` does not exist in the folder, whose contents are abstracted
as the list `files` of indices present. -/
def get_unique_filename (files : List Nat) : Nat :=
  firstFree files (maxFile files + 1) 1

/-- The output path `AudioRecorder.record(number)` chooses: the directory named
by the dialed number (created if absent) and the first unused `i.mp3` inside. -/
def recordPath (number : String) (files : List Nat) : String :=
  number ++ "/" ++ toString (get_unique_filename files) ++ ".mp3"

/-- `AudioRecorder.record(number)`: make the directory, pick the unique
filename, and spawn `rec -t mp3 <path>` via `_execute`. -/
def AudioRecorder.record (number : String) (files : List Nat) (a : BaseAudio)
    (w : ProcWorld) : BaseAudio × ProcWorld × String :=
  let p := a.execute w
  (p.1, p.2, recordPath number files)

/-- `Phone.on_enter_idle`: `audio_recorder.stop()` then `audio_player.stop()`.
Returns (player, recorder, process pool). -/
def on_enter_idle (player recorder : BaseAudio) (w : ProcWorld) :
    BaseAudio × BaseAudio × ProcWorld :=
  let pr := recorder.stop w
  let pp := player.stop pr.2
  (pp.1, pr.1, pp.2)

/-- `Phone.on_enter_answering(number)`:
`audio_player.play("beep-long.mp3").wait()` then
`audio_recorder.record(number=number)`. `beepExists` abstracts
`Path("beep-long.mp3").exists()`, `files` the indices already present in the
number's directory. On success it returns (player, recorder, pool, path of the
new recording). -/
def on_enter_answering (beepExists : Bool) (number : String) (files : List Nat)
    (player recorder : BaseAudio) (w : ProcWorld) :
    Except PyError (BaseAudio × BaseAudio × ProcWorld × String) :=
  match AudioPlayer.play beepExists player w with
  | (none, _, _) => .error .attributeError
  | (some ret, player1, w1) =>
    match ret.wait with
    | .error e => .error e
    | .ok _ =>
      let pr := AudioRecorder.record number files recorder w1
      .ok (player1, pr.1, pr.2.1, pr.2.2)

/-- Local state of the `_get_dial` loop: the counters `num`, `prnt`, `last`,
the accumulator `dialed_numbers`, and `last_dial_time` (seconds, modelled as a
rational). These are loop-local Python variables; no state-machine transition
touches them. -/
structure DialState where
  num : Nat
  prnt : Bool
  last : Bool
  dialed : List Nat
  lastDialTime : ℚ
  deriving DecidableEq

/-- Observable effects of one `_get_dial` iteration: the
`audio_player.stop()` call, the digit appended to `dialed_numbers`, and the
`dial` transition fired with the joined digits. -/
inductive DialEvent where
  | stopPlayer
  | digit (d : Nat)
  | dialNumber (ds : List Nat)
  deriving DecidableEq

/-- The stable-inactive branch of `_get_dial`: when the sample is low, equal to
`last`, and a pulse train was in progress (`prnt`), remap a count of exactly 10
to 0, stop the player, append the digit, reset the counters and set
`last_dial_time = now`. -/
def finalizeStep (pulse : Bool) (now : ℚ) (s : DialState) :
    DialState × List DialEvent :=
  if !pulse && (pulse == s.last) && s.prnt then
    let d := if s.num = 10 then 0 else s.num
    ({ num := 0, prnt := false, last := false,
       dialed := s.dialed ++ [d], lastDialTime := now },
     [.stopPlayer, .digit d])
  else (s, [])

/-- The inter-digit gap check of `_get_dial`: when more than 1.5 s passed since
`last_dial_time` and `dialed_numbers` is non-empty, fire `dial` with the joined
digits, clear the accumulator and set `last_dial_time = now`. -/
def flushStep (now : ℚ) (s : DialState) : DialState × List DialEvent :=
  if now - s.lastDialTime > 3 / 2 ∧ s.dialed ≠ [] then
    ({ s with dialed := [], lastDialTime := now }, [.dialNumber s.dialed])
  else (s, [])

/-- One iteration of the `_get_dial` loop body: do nothing unless the machine
is in Dialing; on a rising edge count the pulse and `continue`, on a falling
edge record it and `continue` (both skip the gap check); otherwise finalize a
pending digit, then run the gap check. -/
def dialStep (isDialing pulse : Bool) (now : ℚ) (s : DialState) :
    DialState × List DialEvent :=
  if !isDialing then (s, [])
  else if pulse && (pulse != s.last) then
    ({ s with last := true, prnt := true, num := s.num + 1 }, [])
  else if !pulse && (pulse != s.last) then
    ({ s with last := false }, [])
  else
    let p1 := finalizeStep pulse now s
    let p2 := flushStep now p1.1
    (p2.1, p1.2 ++ p2.2)

/-- Iterating the loop over a sequence of samples `(isDialing, pulse, now)`,
collecting the emitted effects in order. -/
def dialRun (s : DialState) :
    List (Bool × Bool × ℚ) → DialState × List DialEvent
  | [] => (s, [])
  | (d, p, t) :: rest =>
    let p1 := dialStep d p t s
    let p2 := dialRun p1.1 rest
    (p2.1, p1.2 ++ p2.2)

/-- The loop's local state at startup (`num, prnt, last = 0, False, False`,
empty accumulator, `last_dial_time` read at time `t`). -/
def initDialState (t : ℚ) : DialState :=
  { num := 0, prnt := false, last := false, dialed := [], lastDialTime := t }

/-- A train of `n` pulses sampled at time `t` while in Dialing: `n` alternating
high/low samples followed by one extra stable-low sample (the one that
finalizes the digit). -/
def pulseTrain (t : ℚ) : Nat → List (Bool × Bool × ℚ)
  | 0 => [(true, false, t)]
  | n + 1 => (true, true, t) :: (true, false, t) :: pulseTrain t n

/-- Every index present in the directory is at most `maxFile`. -/
theorem mem_le_maxFile {files : List Nat} {x : Nat} (hx : x ∈ files) :
    x ≤ maxFile files := by
  induction files with
  | nil => cases hx
  | cons a l ih =>
    rw [maxFile, List.foldr_cons]
    rcases List.mem_cons.mp hx with h | h
    · exact h ▸ le_max_left _ _
    · exact le_trans (ih h) (le_max_right _ _)

/-- The search loop of `get_unique_filename`: given enough fuel, it returns an
index at least `idx` that is unused, and every index between `idx` and the
result is used. -/
theorem firstFree_spec (files : List Nat) :
    ∀ fuel idx : Nat, maxFile files < idx + fuel →
      idx ≤ firstFree files fuel idx ∧
      firstFree files fuel idx ∉ files ∧
      ∀ j, idx ≤ j → j < firstFree files fuel idx → j ∈ files := by
  intro fuel
  induction fuel with
  | zero =>
    intro idx h
    simp only [firstFree]
    refine ⟨le_refl _, ?_, ?_⟩
    · intro hmem
      have := mem_le_maxFile hmem
      omega
    · intro j hj1 hj2
      omega
  | succ fuel ih =>
    intro idx h
    simp only [firstFree]
    by_cases hmem : idx ∈ files
    · rw [if_pos hmem]
      obtain ⟨hle, hnot, hall⟩ := ih (idx + 1) (by omega)
      refine ⟨by omega, hnot, ?_⟩
      intro j hj1 hj2
      rcases Nat.eq_or_lt_of_le hj1 with heq | hlt
      · exact heq ▸ hmem
      · exact hall j (by omega) hj2
    · rw [if_neg hmem]
      exact ⟨le_refl _, hmem, fun j hj1 hj2 => absurd hj2 (by omega)⟩

/-- The effect list of one dial-loop iteration: empty (not Dialing, or an edge
branch that `continue`d), or the finalize effects followed by the gap-check
effects. -/
theorem dialStep_events (isDialing pulse : Bool) (now : ℚ) (s : DialState) :
    (dialStep isDialing pulse now s).2 = [] ∨
      (dialStep isDialing pulse now s).2 =
        (finalizeStep pulse now s).2 ++
          (flushStep now (finalizeStep pulse now s).1).2 := by
  unfold dialStep
  split
  · exact Or.inl rfl
  · split
    · exact Or.inl rfl
    · split
      · exact Or.inl rfl
      · exact Or.inr rfl

/-- The finalize branch emits either nothing or a stop request followed by the
decoded digit. -/
theorem finalizeStep_events (pulse : Bool) (now : ℚ) (s : DialState) :
    (finalizeStep pulse now s).2 = [] ∨
      (finalizeStep pulse now s).2 =
        [DialEvent.stopPlayer,
         DialEvent.digit (if s.num = 10 then 0 else s.num)] := by
  unfold finalizeStep
  split
  · exact Or.inr rfl
  · exact Or.inl rfl

/-- The gap check never emits a digit effect. -/
theorem flushStep_no_digit (now : ℚ) (s : DialState) (d : Nat) :
    DialEvent.digit d ∉ (flushStep now s).2 := by
  unfold flushStep
  split <;> simp

/-- C1 counterexample: a finalized train of 11 pulses, all while Dialing,
appends the raw count 11 to the accumulator — the code only remaps the exact
count 10 to 0 — whereas 11 mod 10 is 1, so the appended digit is not the pulse
count mod 10. -/
theorem eleven_pulse_train_digit :
    (dialRun (initDialState 0) (pulseTrain 0 11)).2 =
      [.stopPlayer, .digit 11] ∧ 11 % 10 = 1 := by
  constructor
  · norm_num [dialRun, dialStep, finalizeStep, flushStep, initDialState,
      pulseTrain]
  · rfl

/-- C1 amended: a finalize during Dialing (stable-inactive sample with `prnt`
set) appends the count itself, except that a count of exactly 10 becomes 0;
for every count at most 10 — all that a rotary dial can produce — this equals
`count mod 10` (10 maps to digit 0, n below 10 to digit n). -/
theorem finalize_digit_eq (s : DialState) (now : ℚ)
    (hlast : s.last = false) (hprnt : s.prnt = true) (hnum : s.num ≤ 10) :
    (dialStep true false now s).1.dialed = s.dialed ++ [s.num % 10] ∧
    DialEvent.digit (s.num % 10) ∈ (dialStep true false now s).2 := by
  have hd : (if s.num = 10 then 0 else s.num) = s.num % 10 := by
    by_cases h10 : s.num = 10
    · rw [if_pos h10, h10]
    · rw [if_neg h10, Nat.mod_eq_of_lt (lt_of_le_of_ne hnum h10)]
  have hnoflush : ¬((3 : ℚ) / 2 < 0) := by norm_num
  simp [dialStep, finalizeStep, flushStep, hlast, hprnt, hd, hnoflush]

/-- Witness for `finalize_digit_eq`: a 10-pulse train appends digit
10 mod 10 = 0. -/
theorem finalize_digit_eq_witness :
    (dialStep true false 0
        ⟨10, true, false, [], 0⟩).1.dialed = [] ++ [10 % 10] ∧
    DialEvent.digit (10 % 10) ∈
      (dialStep true false 0 ⟨10, true, false, [], 0⟩).2 :=
  finalize_digit_eq ⟨10, true, false, [], 0⟩ 0 rfl rfl (by decide)

/-- C2 counterexample: digit 5 is finalized at time 0; at time 2 the gap
exceeds 1.5 s and a digit is pending, but that sample is a rising edge, and
the edge branch `continue`s past the gap check — no `dial` event is emitted on
that iteration and the accumulator still holds the digit. -/
theorem edge_iteration_skips_flush :
    (dialRun (initDialState 0) (pulseTrain 0 5 ++ [(true, true, 2)])).2 =
        [.stopPlayer, .digit 5] ∧
    (dialRun (initDialState 0)
        (pulseTrain 0 5 ++ [(true, true, 2)])).1.dialed = [5] ∧
    ((2 : ℚ) - 0 > 3 / 2) := by
  refine ⟨?_, ?_, by norm_num⟩ <;>
    norm_num [dialRun, dialStep, finalizeStep, flushStep, initDialState,
      pulseTrain]

/-- C2 amended: on a Dialing iteration that detects no pulse edge (edge
iterations skip the gap check via `continue`), the accumulated digits are
flushed as one `dial` event exactly when more than 1.5 s elapsed since
`last_dial_time` and the accumulator — both as updated by a finalize in the
same iteration — is non-empty; an empty accumulator is never flushed, and a
flush carries exactly the accumulated digits in order and resets the
accumulator. -/
theorem flush_iff (s : DialState) (pulse : Bool) (now : ℚ)
    (h : pulse = s.last) :
    (DialEvent.dialNumber (finalizeStep pulse now s).1.dialed ∈
        (dialStep true pulse now s).2 ↔
      now - (finalizeStep pulse now s).1.lastDialTime > 3 / 2 ∧
        (finalizeStep pulse now s).1.dialed ≠ []) ∧
    DialEvent.dialNumber [] ∉ (dialStep true pulse now s).2 ∧
    (now - (finalizeStep pulse now s).1.lastDialTime > 3 / 2 ∧
        (finalizeStep pulse now s).1.dialed ≠ [] →
      (dialStep true pulse now s).1.dialed = [] ∧
      (dialStep true pulse now s).2 =
        (finalizeStep pulse now s).2 ++
          [DialEvent.dialNumber (finalizeStep pulse now s).1.dialed]) := by
  obtain ⟨n, pr, la, ds, t⟩ := s
  subst h
  have h32 : ¬((0 : ℚ) > 3 / 2) := by norm_num
  cases pulse
  · cases pr
    · by_cases hc : now - t > 3 / 2 ∧ ds ≠ []
      · simp [dialStep, finalizeStep, flushStep, hc, hc.1, hc.2,
          Ne.symm hc.2]
      · simp [dialStep, finalizeStep, flushStep, hc]
    · simp [dialStep, finalizeStep, flushStep, sub_self, h32]
  · by_cases hc : now - t > 3 / 2 ∧ ds ≠ []
    · simp [dialStep, finalizeStep, flushStep, hc, hc.1, hc.2, Ne.symm hc.2]
    · simp [dialStep, finalizeStep, flushStep, hc]

/-- Witness for `flush_iff`: with digit 5 pending since time 0, the stable-low
sample at time 2 does flush, by the iff's right-to-left direction. -/
theorem flush_iff_witness :
    DialEvent.dialNumber
        (finalizeStep false 2 ⟨0, false, false, [5], 0⟩).1.dialed ∈
      (dialStep true false 2 ⟨0, false, false, [5], 0⟩).2 :=
  ((flush_iff ⟨0, false, false, [5], 0⟩ false 2 rfl).1).mpr
    (by norm_num [finalizeStep])

/-- C3 counterexample: firing `dial` while Idle leaves the state unchanged and
runs no audio action, but raises `TransitionNotAllowed` instead of returning
normally — and no monitor loop in `app.py` installs a handler — so the
claim's "never propagates an unhandled fault" part fails. -/
theorem dial_while_idle_raises :
    fireEvent .idle (.dial "1") =
      (.idle, [], some .transitionNotAllowed) ∧
    (fireEvent .idle (.dial "1")).2.2 ≠ none :=
  ⟨rfl, by decide⟩

/-- C3 amended: every (state, event) pair outside the transition table leaves
the state unchanged and performs no audio action, but raises
`TransitionNotAllowed` to the caller rather than being silently discarded; the
monitor loops avoid such faults by guarding on `current_state` before firing,
not by catching them. -/
theorem invalid_event_rejected (s : PhoneState) (e : PhoneEvent)
    (h : transition s e = none) :
    fireEvent s e = (s, [], some .transitionNotAllowed) := by
  unfold fireEvent
  rw [h]

/-- Witness for `invalid_event_rejected`: `answer` while Idle is outside the
table and is rejected with a raised `TransitionNotAllowed`. -/
theorem invalid_event_rejected_witness :
    fireEvent .idle .answer = (.idle, [], some .transitionNotAllowed) :=
  invalid_event_rejected .idle .answer rfl

/-- C4: entering Answering never reaches the recorder: whether or not
`beep-long.mp3` exists, `play(...).wait()` raises `AttributeError` — `play`
returns `None` when the file is missing, and otherwise `_execute` stored the
spawned process in `current_recording_process`, leaving `current_process` as
`None` for `wait` to dereference — so the prompt is never awaited to
completion through the API and no recording process is ever started. -/
theorem on_enter_answering_raises (beepExists : Bool) (number : String)
    (files : List Nat) (player recorder : BaseAudio) (w : ProcWorld) :
    on_enter_answering beepExists number files player recorder w =
      .error .attributeError := by
  cases beepExists
  · rfl
  · obtain ⟨cp, crp⟩ := player
    cases cp <;> rfl

/-- C5: the `stop` calls of `on_enter_idle` never terminate anything: playing
the dial tone spawns process 0, but `play`'s `_execute` stores the handle in
`current_recording_process`, so both `stop` calls find `current_process =
None` and return at once — process 0 is still running after entering Idle. -/
theorem stop_does_not_terminate :
    ((AudioPlayer.play true BaseAudio.init ⟨[], 0⟩).2.2).running = [0] ∧
    (on_enter_idle (AudioPlayer.play true BaseAudio.init ⟨[], 0⟩).2.1
        BaseAudio.init
        (AudioPlayer.play true BaseAudio.init ⟨[], 0⟩).2.2).2.2.running =
      [0] :=
  ⟨rfl, rfl⟩

/-- C6: `hang_up` is in the table from every state and always targets Idle; it
is a permitted self-transition from Idle, and firing it twice ends in the same
state as firing it once. -/
theorem hang_up_total_idempotent :
    ∀ s : PhoneState,
      transition s .hang_up = some .idle ∧
      fireState s .hang_up = .idle ∧
      fireState (fireState s .hang_up) .hang_up = fireState s .hang_up := by
  intro s
  cases s <;> exact ⟨rfl, rfl, rfl⟩

/-- C7: the decoder's loop-local variables survive leaving Dialing. Digit 5 is
finalized during a call; the `(false, _, _)` sample is an iteration after
hang-up (outside Dialing the loop skips everything but keeps its locals); and
after the next pickup, the first stable Dialing sample (here at time 10)
flushes the stale digit as the new call's dialed number. -/
theorem stale_digits_survive_hang_up :
    (dialRun (initDialState 0)
        (pulseTrain 0 5 ++ [(false, false, 1), (true, false, 10)])).2 =
      [.stopPlayer, .digit 5, .dialNumber [5]] := by
  norm_num [dialRun, dialStep, finalizeStep, flushStep, initDialState,
    pulseTrain]

/-- C8: `get_unique_filename` returns the smallest positive index whose `.mp3`
file does not yet exist — the result is at least 1, unused (so no existing
recording is ever overwritten), and every smaller positive index is used; with
`1.mp3` and `2.mp3` present the result is 3 and the new recording of number
`7` goes to `7/3.mp3`. -/
theorem get_unique_filename_spec :
    (∀ files : List Nat,
        1 ≤ get_unique_filename files ∧
        get_unique_filename files ∉ files ∧
        ∀ j, 1 ≤ j → j < get_unique_filename files → j ∈ files) ∧
    get_unique_filename [1, 2] = 3 ∧ recordPath "7" [1, 2] = "7/3.mp3" := by
  refine ⟨fun files => ?_, by rfl, by rfl⟩
  exact firstFree_spec files (maxFile files + 1) 1 (by omega)

/-- C10: any iteration of the dial loop that finalizes a digit also invokes
`audio_player.stop()` in that same iteration — the stop of the dial tone is
requested at every decoded digit, not only at the flush or on leaving
Dialing. -/
theorem digit_finalize_requests_stop (isDialing pulse : Bool) (now : ℚ)
    (s : DialState) (d : Nat)
    (h : DialEvent.digit d ∈ (dialStep isDialing pulse now s).2) :
    DialEvent.stopPlayer ∈ (dialStep isDialing pulse now s).2 := by
  rcases dialStep_events isDialing pulse now s with he | he
  · rw [he] at h
    exact absurd h (List.not_mem_nil _)
  · rw [he] at h ⊢
    rcases List.mem_append.mp h with h1 | h1
    · rcases finalizeStep_events pulse now s with hf | hf
      · rw [hf] at h1
        exact absurd h1 (List.not_mem_nil _)
      · rw [hf]
        exact List.mem_append.mpr (Or.inl (by simp))
    · exact absurd h1 (flushStep_no_digit _ _ _)

/-- Witness for `digit_finalize_requests_stop`: finalizing a 3-pulse train
emits the stop request in the same iteration. -/
theorem digit_finalize_requests_stop_witness :
    DialEvent.stopPlayer ∈
      (dialStep true false 0 ⟨3, true, false, [], 0⟩).2 :=
  digit_finalize_requests_stop true false 0 ⟨3, true, false, [], 0⟩ 3
    (by norm_num [dialStep, finalizeStep, flushStep])

end RotaryPhone
